import Mathlib

/-!
Shallow embedding of the `resend-rs` request-dispatch core
(`src/config.rs`, `src/client.rs`) and of the two facades the claims
touch (`src/emails.rs`, `src/contacts.rs`).

External collaborators (the `reqwest` transport, `serde` JSON
(de)serialization, the `governor` rate limiter) are modelled at the
boundary: transport execution and body decoding are passed in as
explicit functions whose `Except` results mirror the `?`-propagation of
`reqwest::Error` in the Rust source.  Machine strings stay `String`,
`u32` becomes `Nat` with an explicit `< 2^32` bound where the source
parses a `u32`.
-/

/-- HTTP methods used by the facades (`reqwest::Method`). -/
inductive Method where
  | GET
  | POST
  | PATCH
  | DELETE
  | PUT
deriving DecidableEq, Repr

/-- A parsed absolute URL, reduced to the parts the dispatcher uses:
the scheme+authority origin and the path.  `reqwest::Url` carries more
(query, fragment), none of which the embedded code reads or writes. -/
structure UrlModel where
  origin : String
  path : String
deriving DecidableEq, Repr

/-- Everything of `base.path` up to and including the last `/`, the RFC
3986 merge rule `Url::join` applies to a relative reference. -/
def dropLastSegment (p : String) : String :=
  let rev := p.toList.reverse
  let keep := rev.dropWhile (fun c => c ≠ '/')
  if keep.isEmpty then "/" else String.mk keep.reverse

/-- Rust `Url::join`: an absolute-path reference replaces the base path, a
relative one is merged onto it.  (For an http(s) base as used here the
join never fails, so the model is total.) -/
def UrlModel.join (u : UrlModel) (p : String) : UrlModel :=
  match p.data with
  | '/' :: _ => { origin := u.origin, path := p }
  | _ => { origin := u.origin, path := dropLastSegment u.path ++ p }

/-- An unsent request descriptor (`reqwest::RequestBuilder`): method,
resolved URL, headers in insertion order, optional body. -/
structure RequestModel where
  method : Method
  url : UrlModel
  headers : List (String × String)
  body : Option String
deriving DecidableEq, Repr

/-- Rust `RequestBuilder::json(&value)`: sets the serialized body and the
`Content-Type` header.  Serialization itself is serde's, so callers pass
the serialized string. -/
def RequestModel.json (r : RequestModel) (body : String) : RequestModel :=
  { r with
    headers := r.headers ++ [("Content-Type", "application/json")]
    body := some body }

/-- A transport-level error (`reqwest::Error`), opaque to the
dispatcher beyond its existence. -/
structure ReqwestError where
  msg : String
deriving DecidableEq, Repr

/-- An executed HTTP response (`reqwest::Response`): status code and
raw body.  The dispatcher reads only the status; the body is consumed
by whoever decodes it. -/
structure Response where
  status : Nat
  body : String
deriving DecidableEq, Repr

/-- Rust `StatusCode::is_client_error`: 400 ≤ code < 500. -/
def is_client_error (s : Nat) : Bool :=
  decide (400 ≤ s) && decide (s < 500)

/-- Rust `StatusCode::is_server_error`: 500 ≤ code < 600. -/
def is_server_error (s : Nat) : Bool :=
  decide (500 ≤ s) && decide (s < 600)

/-- Modelled from the spec: the structured API error payload
`ErrorResponse` (its defining module `error::types` is not under
`src/`; `src/config.rs` only imports it).  The spec's error-body
contract: "an object carrying at minimum an error-kind identifier and a
message string", with the wire field names `name` and `message`. -/
structure ErrorResponse where
  name : String
  message : String
deriving DecidableEq, Repr

/-- The library error type (`Error` in `src/lib.rs`): `Http` wraps a
`reqwest::Error` (transport or decoding failure), `Resend` wraps a
decoded structured API error. -/
inductive Error where
  | Http (e : ReqwestError)
  | Resend (e : ErrorResponse)
deriving DecidableEq, Repr

/-- The dispatcher state (`Config` in `src/config.rs`): user agent, API
key, base URL, and the rate-limiter burst quota.  The `reqwest::Client`
transport is modelled separately as an execution function, and the
limiter's clock state is irrelevant to the claims (its wait only
delays, it never fails a call). -/
structure Config where
  user_agent : String
  api_key : String
  base_url : UrlModel
  burst : Nat
deriving DecidableEq, Repr

/-- Rust `Config::build`: resolve `path` against `base_url`, attach the
bearer `Authorization` header from the key and the fixed `User-Agent`
header, return the unsent request.  Pure construction, no I/O. -/
def Config.build (c : Config) (method : Method) (path : String) : RequestModel :=
  { method := method
    url := c.base_url.join path
    headers := [("Authorization", "Bearer " ++ c.api_key), ("User-Agent", c.user_agent)]
    body := none }

/-- Rust `Config::send`.  The rate-limiter acquisition
(`limiter.until_ready_with_jitter`) only suspends and never fails, so
it has no value-level effect here.  `built` is the result of
`request.build()?`, `execute` runs `client.execute(request).await?`,
and `decodeError` is `response.json::<ErrorResponse>().await?`; each
`?` propagates the `reqwest::Error` as `Error.Http`.  A 4xx/5xx status
is decoded into `Error.Resend`; anything else passes the response
through untouched. -/
def Config.send (built : Except ReqwestError RequestModel)
    (execute : RequestModel → Except ReqwestError Response)
    (decodeError : Response → Except ReqwestError ErrorResponse) :
    Except Error Response :=
  match built with
  | .error e => .error (.Http e)
  | .ok request =>
    match execute request with
    | .error e => .error (.Http e)
    | .ok response =>
      if is_client_error response.status || is_server_error response.status then
        match decodeError response with
        | .ok err => .error (.Resend err)
        | .error e => .error (.Http e)
      else .ok response

/-- An email tag (`Tag` in `src/emails.rs`). -/
structure Tag where
  name : String
  value : String
deriving DecidableEq, Repr

/-- Content or path of an attachment (`ContentOrPath`): inline bytes or
a hosted path. -/
inductive ContentOrPath where
  | Content (bytes : List Nat)
  | Path (path : String)
deriving DecidableEq, Repr

/-- An email attachment (`Attachment` in `src/emails.rs`). -/
structure Attachment where
  content_or_path : ContentOrPath
  filename : Option String
  content_type : Option String
deriving DecidableEq, Repr

/-- The email-request builder (`CreateEmailBaseOptions` in
`src/emails.rs`).  The `headers` HashMap is modelled as an association
list with replace-on-insert semantics. -/
structure CreateEmailBaseOptions where
  «from» : String
  «to» : List String
  subject : String
  html : Option String
  text : Option String
  bcc : Option (List String)
  cc : Option (List String)
  reply_to : Option (List String)
  headers : Option (List (String × String))
  attachments : Option (List Attachment)
  tags : Option (List Tag)
deriving DecidableEq, Repr

/-- Rust `CreateEmailBaseOptions::new`: mandatory from/to/subject, every
optional field absent. -/
def CreateEmailBaseOptions.new (sender : String) («to» : List String)
    (subject : String) : CreateEmailBaseOptions :=
  { «from» := sender, «to» := «to», subject := subject
    html := none, text := none
    bcc := none, cc := none, reply_to := none
    headers := none, attachments := none, tags := none }

/-- Rust `with_html`: adds or overwrites the HTML version. -/
def CreateEmailBaseOptions.with_html (o : CreateEmailBaseOptions) (html : String) :
    CreateEmailBaseOptions :=
  { o with html := some html }

/-- Rust `with_text`: adds or overwrites the plain-text version. -/
def CreateEmailBaseOptions.with_text (o : CreateEmailBaseOptions) (text : String) :
    CreateEmailBaseOptions :=
  { o with text := some text }

/-- Rust `with_bcc`: `get_or_insert_with(Vec::new)` then `push` — appends to
the existing list, creating it when absent. -/
def CreateEmailBaseOptions.with_bcc (o : CreateEmailBaseOptions) (address : String) :
    CreateEmailBaseOptions :=
  { o with bcc := some (o.bcc.getD [] ++ [address]) }

/-- Rust `with_cc`: appends a `cc` address. -/
def CreateEmailBaseOptions.with_cc (o : CreateEmailBaseOptions) (address : String) :
    CreateEmailBaseOptions :=
  { o with cc := some (o.cc.getD [] ++ [address]) }

/-- Rust `with_reply`: appends a `reply_to` address. -/
def CreateEmailBaseOptions.with_reply (o : CreateEmailBaseOptions) («to» : String) :
    CreateEmailBaseOptions :=
  { o with reply_to := some (o.reply_to.getD [] ++ [«to»]) }

/-- Rust `HashMap::insert`: replace the value at an existing key, otherwise
add the binding. -/
def insertHeader : List (String × String) → String → String → List (String × String)
  | [], n, v => [(n, v)]
  | (k, w) :: rest, n, v =>
    if k = n then (n, v) :: rest else (k, w) :: insertHeader rest n v

/-- Rust `with_header`: adds or overwrites an email header. -/
def CreateEmailBaseOptions.with_header (o : CreateEmailBaseOptions)
    (name value : String) : CreateEmailBaseOptions :=
  { o with headers := some (insertHeader (o.headers.getD []) name value) }

/-- Rust `with_attachment`: appends an attachment. -/
def CreateEmailBaseOptions.with_attachment (o : CreateEmailBaseOptions)
    (file : Attachment) : CreateEmailBaseOptions :=
  { o with attachments := some (o.attachments.getD [] ++ [file]) }

/-- Rust `with_tag`: appends a tag. -/
def CreateEmailBaseOptions.with_tag (o : CreateEmailBaseOptions) (tag : Tag) :
    CreateEmailBaseOptions :=
  { o with tags := some (o.tags.getD [] ++ [tag]) }

/-- Rust `CreateEmailResponse`: the id of the sent email (`EmailId` is a
string wrapper). -/
structure CreateEmailResponse where
  id : String
deriving DecidableEq, Repr

/-- A received email (`Email` in `src/emails.rs`). -/
structure Email where
  id : String
  «from» : String
  «to» : List String
  subject : String
  created_at : String
  html : Option String
  text : String
  bcc : List String
  cc : List String
  reply_to : Option (List String)
  last_event : String
deriving DecidableEq, Repr

/-- Rust `CreateContactRequest` (`src/contacts.rs`). -/
structure CreateContactRequest where
  email : String
  first_name : Option String
  last_name : Option String
  unsubscribed : Option Bool
  audience_id : Option String
deriving DecidableEq, Repr

/-- Rust `CreateContactResponse`. -/
structure CreateContactResponse where
  object : Option String
  id : Option String
deriving DecidableEq, Repr

/-- Rust `GetContactResponse`. -/
structure GetContactResponse where
  object : Option String
  id : Option String
  email : Option String
  first_name : Option String
  last_name : Option String
  created_at : Option String
  unsubscribed : Option Bool
deriving DecidableEq, Repr

/-- Rust `UpdateContactRequest`. -/
structure UpdateContactRequest where
  email : Option String
  first_name : Option String
  last_name : Option String
  unsubscribed : Option Bool
deriving DecidableEq, Repr

/-- Rust `UpdateContactResponse`. -/
structure UpdateContactResponse where
  object : Option String
  id : Option String
deriving DecidableEq, Repr

/-- An item of `ListContactsResponse`. -/
structure ListContactsItem where
  id : Option String
  email : Option String
  first_name : Option String
  last_name : Option String
  created_at : Option String
  unsubscribed : Option Bool
deriving DecidableEq, Repr

/-- Rust `ListContactsResponse`. -/
structure ListContactsResponse where
  object : Option String
  data : Option (List ListContactsItem)
deriving DecidableEq, Repr

/-- Rust `EmailsSvc::send` (`src/emails.rs`): build `POST /emails`, set the
JSON body, dispatch through `Config::send`, decode the typed response.
`serialize` is serde's serialization of the email, `decodeContent` is
`response.json::<CreateEmailResponse>()`. -/
def EmailsSvc.send (cfg : Config) (email : CreateEmailBaseOptions)
    (serialize : CreateEmailBaseOptions → String)
    (execute : RequestModel → Except ReqwestError Response)
    (decodeError : Response → Except ReqwestError ErrorResponse)
    (decodeContent : Response → Except ReqwestError CreateEmailResponse) :
    Except Error CreateEmailResponse :=
  let request := cfg.build .POST "/emails"
  match Config.send (.ok (request.json (serialize email))) execute decodeError with
  | .error e => .error e
  | .ok response =>
    match decodeContent response with
    | .error e => .error (.Http e)
    | .ok content => .ok content

/-- Rust `EmailsSvc::get` (`src/emails.rs`): build `GET /emails/<id>`,
dispatch through `Config::send`, decode the typed response. -/
def EmailsSvc.get (cfg : Config) (email_id : String)
    (execute : RequestModel → Except ReqwestError Response)
    (decodeError : Response → Except ReqwestError ErrorResponse)
    (decodeContent : Response → Except ReqwestError Email) :
    Except Error Email :=
  let path := "/emails/" ++ email_id
  let request := cfg.build .GET path
  match Config.send (.ok request) execute decodeError with
  | .error e => .error e
  | .ok response =>
    match decodeContent response with
    | .error e => .error (.Http e)
    | .ok content => .ok content

/-- Rust `Contacts::add` (`src/contacts.rs`): builds the request via
`Config::build`, but sends it with the request builder's own
`send()` — the transport directly, NOT `Config::send` — and decodes the
body with no status inspection.  `?` on the transport or decode result
propagates `Error.Http`. -/
def Contacts.add (cfg : Config) (audience_id : String)
    (contact : CreateContactRequest)
    (serialize : CreateContactRequest → String)
    (execute : RequestModel → Except ReqwestError Response)
    (decodeContent : Response → Except ReqwestError CreateContactResponse) :
    Except Error CreateContactResponse :=
  let path := "/audiences/" ++ audience_id ++ "/contacts"
  let request := cfg.build .POST path
  match execute (request.json (serialize contact)) with
  | .error e => .error (.Http e)
  | .ok response =>
    match decodeContent response with
    | .error e => .error (.Http e)
    | .ok content => .ok content

/-- Rust `Contacts::retrieve`: `GET`, sent directly over the transport,
decoded with no status inspection. -/
def Contacts.retrieve (cfg : Config) (contact_id audience_id : String)
    (execute : RequestModel → Except ReqwestError Response)
    (decodeContent : Response → Except ReqwestError GetContactResponse) :
    Except Error GetContactResponse :=
  let path := "/audiences/" ++ audience_id ++ "/contacts/" ++ contact_id
  let request := cfg.build .GET path
  match execute request with
  | .error e => .error (.Http e)
  | .ok response =>
    match decodeContent response with
    | .error e => .error (.Http e)
    | .ok content => .ok content

/-- Rust `Contacts::update`: `PATCH` with JSON body, sent directly over the
transport, decoded with no status inspection. -/
def Contacts.update (cfg : Config) (contact_id audience_id : String)
    (contact : UpdateContactRequest)
    (serialize : UpdateContactRequest → String)
    (execute : RequestModel → Except ReqwestError Response)
    (decodeContent : Response → Except ReqwestError UpdateContactResponse) :
    Except Error UpdateContactResponse :=
  let path := "/audiences/" ++ audience_id ++ "/contacts/" ++ contact_id
  let request := cfg.build .PATCH path
  match execute (request.json (serialize contact)) with
  | .error e => .error (.Http e)
  | .ok response =>
    match decodeContent response with
    | .error e => .error (.Http e)
    | .ok content => .ok content

/-- Rust `Contacts::delete`: `DELETE`, sent directly over the transport; the
response is bound to `_response` and dropped, so every delivered
response yields `Ok(())`. -/
def Contacts.delete (cfg : Config) (audience_id email_or_id : String)
    (execute : RequestModel → Except ReqwestError Response) :
    Except Error Unit :=
  let path := "/audiences/" ++ audience_id ++ "/contacts/" ++ email_or_id
  let request := cfg.build .DELETE path
  match execute request with
  | .error e => .error (.Http e)
  | .ok _response => .ok ()

/-- Rust `Contacts::list`: `GET`, sent directly over the transport, decoded
with no status inspection. -/
def Contacts.list (cfg : Config) (audience_id : String)
    (execute : RequestModel → Except ReqwestError Response)
    (decodeContent : Response → Except ReqwestError ListContactsResponse) :
    Except Error ListContactsResponse :=
  let path := "/audiences/" ++ audience_id ++ "/contacts"
  let request := cfg.build .GET path
  match execute request with
  | .error e => .error (.Http e)
  | .ok response =>
    match decodeContent response with
    | .error e => .error (.Http e)
    | .ok content => .ok content

/-- Follows the spec's words for C3 (refinement side): a facade call is
the composition `Dispatcher.build` (plus optional JSON decoration) →
`Dispatcher.send` (throttle + execute + classify) → decode of the typed
response, any decode failure surfacing as a transport error. -/
def dispatchPipeline {α : Type} (cfg : Config) (method : Method) (path : String)
    (body : Option String)
    (execute : RequestModel → Except ReqwestError Response)
    (decodeError : Response → Except ReqwestError ErrorResponse)
    (decodeContent : Response → Except ReqwestError α) : Except Error α :=
  let request :=
    match body with
    | some b => (cfg.build method path).json b
    | none => cfg.build method path
  match Config.send (.ok request) execute decodeError with
  | .error e => .error e
  | .ok response =>
    match decodeContent response with
    | .error e => .error (.Http e)
    | .ok content => .ok content

/-- Rust `str::parse::<u32>`: optional leading `+`, at least one ASCII
digit, value below `2^32`; anything else fails. -/
def parseU32 (s : String) : Option Nat :=
  let cs :=
    match s.data with
    | '+' :: rest => rest
    | cs => cs
  if cs.isEmpty then none
  else if cs.all Char.isDigit then
    let n := cs.foldl (fun a c => a * 10 + (c.toNat - 48)) 0
    if n < 2 ^ 32 then some n else none
  else none

/-- The rate-limiter burst resolution inside `Config::new`
(`src/config.rs` lines 42-53): read `RESEND_RATE_LIMIT` (default
`"9"`), parse it as a `u32` (`expect` — fatal, modelled as `none` — on
parse failure), then `NonZeroU32::new(...).expect(...)` — fatal again
when the parsed value is `0`.  `some b` is the burst capacity handed to
`Quota::allow_burst`. -/
def configNewRateLimit (env : Option String) : Option Nat :=
  match parseU32 (env.getD "9") with
  | none => none
  | some n => if n = 0 then none else some n

/-- Rust `Config::new` after environment resolution: the user agent is the
fixed `"<pkg name>/<pkg version>"` string, the key is stored as given,
and the resolved base URL and burst quota are recorded.  (`pkgName` and
`pkgVersion` stand for the compile-time `CARGO_PKG_NAME` /
`CARGO_PKG_VERSION` constants.) -/
def Config.new (pkgName pkgVersion api_key : String) (base_url : UrlModel)
    (burst : Nat) : Config :=
  { user_agent := pkgName ++ "/" ++ pkgVersion
    api_key := api_key
    base_url := base_url
    burst := burst }

/-- A shared, reference-counted pointer to a `Config`
(`Arc<Config>`): the allocation identity `id` plus the pointed-to
value.  Two `ArcConfig`s with the same `id` are the same allocation;
`Arc::clone` copies the pointer, never the `Config`. -/
structure ArcConfig where
  id : Nat
  val : Config
deriving DecidableEq, Repr

/-- The client handle (`Client` in `src/client.rs`): five facades, each
holding its `Arc<Config>`. -/
structure Client where
  emails : ArcConfig
  api_keys : ArcConfig
  audiences : ArcConfig
  contacts : ArcConfig
  domains : ArcConfig
deriving DecidableEq, Repr

/-- Rust `Client::with_client`: allocate ONE `Arc<Config>` (at the next
fresh allocation id) and hand clones of that same pointer to all five
facades.  Returns the client and the advanced allocation counter. -/
def Client.with_client (nextId : Nat) (pkgName pkgVersion api_key : String)
    (base_url : UrlModel) (burst : Nat) : Client × Nat :=
  let inner : ArcConfig := ⟨nextId, Config.new pkgName pkgVersion api_key base_url burst⟩
  (⟨inner, inner, inner, inner, inner⟩, nextId + 1)

/-- Rust `#[derive(Clone)]` on `Client`: clones each facade, i.e. each
`Arc` pointer — the same allocation ids, no new `Config`. -/
def Client.clone (c : Client) : Client :=
  { emails := c.emails, api_keys := c.api_keys, audiences := c.audiences
    contacts := c.contacts, domains := c.domains }

/-- Rust `Client::api_key`: `self.emails.0.api_key.clone()`. -/
def Client.api_key (c : Client) : String :=
  c.emails.val.api_key

/-- Rust `Client::user_agent`: `self.emails.0.user_agent.clone()`. -/
def Client.user_agent (c : Client) : String :=
  c.emails.val.user_agent

/-- C1: for every response reaching `Config::send` with status in
[400,599], a body that decodes to the structured error shape yields
exactly `Error.Resend` of the decoded value, and an undecodable body
yields `Error.Http` of the decoding failure — never a fabricated
`Resend` error. -/
theorem send_classifies_error_statuses
    (request : RequestModel)
    (execute : RequestModel → Except ReqwestError Response)
    (decodeError : Response → Except ReqwestError ErrorResponse)
    (response : Response)
    (h400 : 400 ≤ response.status) (h599 : response.status ≤ 599)
    (hex : execute request = .ok response) :
    (∀ err, decodeError response = .ok err →
      Config.send (.ok request) execute decodeError = .error (.Resend err)) ∧
    (∀ e, decodeError response = .error e →
      Config.send (.ok request) execute decodeError = .error (.Http e)) := by
  have hcls : (is_client_error response.status || is_server_error response.status) = true := by
    simp only [is_client_error, is_server_error, Bool.or_eq_true, Bool.and_eq_true,
      decide_eq_true_eq]
    omega
  constructor
  · intro err hdec
    simp only [Config.send, hex, hcls, if_true, hdec]
  · intro e hdec
    simp only [Config.send, hex, hcls, if_true, hdec]

/-- Witness for C1 at a concrete 422 response with the spec's example
error body, and a concrete undecodable case. -/
theorem send_classifies_error_statuses_witness :
    Config.send (.ok ⟨.POST, ⟨"https://api.resend.com", "/emails"⟩, [], none⟩)
        (fun _ => .ok ⟨422, "e"⟩)
        (fun _ => .ok ⟨"validation_error", "invalid from field"⟩)
      = .error (.Resend ⟨"validation_error", "invalid from field"⟩) :=
  (send_classifies_error_statuses
    ⟨.POST, ⟨"https://api.resend.com", "/emails"⟩, [], none⟩
    (fun _ => .ok ⟨422, "e"⟩)
    (fun _ => .ok ⟨"validation_error", "invalid from field"⟩)
    ⟨422, "e"⟩ (by decide) (by decide) rfl).1
    ⟨"validation_error", "invalid from field"⟩ rfl

/-- C2: a response whose status lies outside [400,599] is returned by
`Config::send` as `Except.ok` of the very response the transport
delivered, unmodified. -/
theorem send_passes_through_non_error
    (request : RequestModel)
    (execute : RequestModel → Except ReqwestError Response)
    (decodeError : Response → Except ReqwestError ErrorResponse)
    (response : Response)
    (hst : response.status < 400 ∨ 599 < response.status)
    (hex : execute request = .ok response) :
    Config.send (.ok request) execute decodeError = .ok response := by
  have hcls : (is_client_error response.status || is_server_error response.status) = false := by
    simp only [is_client_error, is_server_error, Bool.or_eq_false_iff, Bool.and_eq_false_iff,
      decide_eq_false_iff_not, not_le, not_lt]
    omega
  simp only [Config.send, hex, hcls]
  rfl

/-- Witness for C2 at a concrete 200 response. -/
theorem send_passes_through_non_error_witness :
    Config.send (.ok ⟨.GET, ⟨"https://api.resend.com", "/emails/e1"⟩, [], none⟩)
        (fun _ => .ok ⟨200, "{}"⟩) (fun _ => .error ⟨"no decode"⟩)
      = .ok ⟨200, "{}"⟩ :=
  send_passes_through_non_error
    ⟨.GET, ⟨"https://api.resend.com", "/emails/e1"⟩, [], none⟩
    (fun _ => .ok ⟨200, "{}"⟩) (fun _ => .error ⟨"no decode"⟩)
    ⟨200, "{}"⟩ (Or.inl (by decide)) rfl

/-- C3 counterexample: on a 500 response whose body decodes as the
structured error, `Contacts::add` returns a decoded success while the
spec's build → `Dispatcher.send` → decode composition returns the
classified Remote error, so the Contacts facade is not that
composition. -/
theorem contacts_add_not_dispatch_composition :
    Contacts.add ⟨"resend-rs/0.1.0", "k", ⟨"https://api.resend.com", "/"⟩, 9⟩ "aud"
        ⟨"bob@example.com", none, none, none, none⟩ (fun _ => "c")
        (fun _ => .ok ⟨500, "e"⟩)
        (fun _ => .ok ⟨some "contact", some "c1"⟩)
      ≠ dispatchPipeline ⟨"resend-rs/0.1.0", "k", ⟨"https://api.resend.com", "/"⟩, 9⟩ .POST
        ("/audiences/" ++ "aud" ++ "/contacts") (some "c")
        (fun _ => .ok ⟨500, "e"⟩)
        (fun _ => .ok ⟨"internal_server_error", "boom"⟩)
        (fun _ => .ok ⟨some "contact", some "c1"⟩) := by
  intro h
  have h1 : Contacts.add ⟨"resend-rs/0.1.0", "k", ⟨"https://api.resend.com", "/"⟩, 9⟩ "aud"
      ⟨"bob@example.com", none, none, none, none⟩ (fun _ => "c")
      (fun _ => .ok ⟨500, "e"⟩)
      (fun _ => .ok ⟨some "contact", some "c1"⟩)
      = .ok ⟨some "contact", some "c1"⟩ := rfl
  have h2 : dispatchPipeline ⟨"resend-rs/0.1.0", "k", ⟨"https://api.resend.com", "/"⟩, 9⟩ .POST
      ("/audiences/" ++ "aud" ++ "/contacts") (some "c")
      (fun _ => .ok ⟨500, "e"⟩)
      (fun _ => .ok ⟨"internal_server_error", "boom"⟩)
      ((fun _ => .ok ⟨some "contact", some "c1"⟩) :
        Response → Except ReqwestError CreateContactResponse)
      = .error (.Resend ⟨"internal_server_error", "boom"⟩) := rfl
  rw [h1, h2] at h
  exact Except.noConfusion h

/-- C3 amended: the Emails facade operations are exactly the spec's
build → `Dispatcher.send` → decode composition, but every Contacts
operation (add, retrieve, update, delete, list) sends over the
transport directly, bypassing `Dispatcher.send`'s rate-limiter
acquisition and 4xx/5xx classification: none of them can ever return a
Remote (`Resend`) error. -/
theorem facades_dispatch_amended
    (cfg : Config) (email : CreateEmailBaseOptions)
    (serializeE : CreateEmailBaseOptions → String)
    (execute : RequestModel → Except ReqwestError Response)
    (decodeError : Response → Except ReqwestError ErrorResponse)
    (decodeEmail : Response → Except ReqwestError CreateEmailResponse)
    (decodeGet : Response → Except ReqwestError Email)
    (email_id audience_id contact_id email_or_id : String)
    (contact : CreateContactRequest) (serializeC : CreateContactRequest → String)
    (upd : UpdateContactRequest) (serializeU : UpdateContactRequest → String)
    (decodeAdd : Response → Except ReqwestError CreateContactResponse)
    (decodeRet : Response → Except ReqwestError GetContactResponse)
    (decodeUpd : Response → Except ReqwestError UpdateContactResponse)
    (decodeList : Response → Except ReqwestError ListContactsResponse) :
    EmailsSvc.send cfg email serializeE execute decodeError decodeEmail
      = dispatchPipeline cfg .POST "/emails" (some (serializeE email))
          execute decodeError decodeEmail ∧
    EmailsSvc.get cfg email_id execute decodeError decodeGet
      = dispatchPipeline cfg .GET ("/emails/" ++ email_id) none
          execute decodeError decodeGet ∧
    (∀ err, Contacts.add cfg audience_id contact serializeC execute decodeAdd
      ≠ .error (.Resend err)) ∧
    (∀ err, Contacts.retrieve cfg contact_id audience_id execute decodeRet
      ≠ .error (.Resend err)) ∧
    (∀ err, Contacts.update cfg contact_id audience_id upd serializeU execute decodeUpd
      ≠ .error (.Resend err)) ∧
    (∀ err, Contacts.delete cfg audience_id email_or_id execute
      ≠ .error (.Resend err)) ∧
    (∀ err, Contacts.list cfg audience_id execute decodeList
      ≠ .error (.Resend err)) := by
  refine ⟨?_, ?_, ?_, ?_, ?_, ?_, ?_⟩
  · cases hS : Config.send (.ok ((Config.build cfg .POST "/emails").json (serializeE email)))
        execute decodeError with
    | error e => simp [EmailsSvc.send, dispatchPipeline, hS]
    | ok r =>
      cases hD : decodeEmail r <;>
        simp [EmailsSvc.send, dispatchPipeline, hS, hD]
  · cases hS : Config.send (.ok (Config.build cfg .GET ("/emails/" ++ email_id)))
        execute decodeError with
    | error e => simp [EmailsSvc.get, dispatchPipeline, hS]
    | ok r =>
      cases hD : decodeGet r <;>
        simp [EmailsSvc.get, dispatchPipeline, hS, hD]
  all_goals intro err h
  · simp only [Contacts.add] at h
    split at h
    · simp at h
    · split at h <;> simp at h
  · simp only [Contacts.retrieve] at h
    split at h
    · simp at h
    · split at h <;> simp at h
  · simp only [Contacts.update] at h
    split at h
    · simp at h
    · split at h <;> simp at h
  · simp only [Contacts.delete] at h
    split at h <;> simp at h
  · simp only [Contacts.list] at h
    split at h
    · simp at h
    · split at h <;> simp at h

/-- Witness for C3's amended theorem at concrete inputs: the Emails
pipeline equality instantiated, and a concrete Contacts.add outcome
that is not a Remote error. -/
theorem facades_dispatch_amended_witness :
    EmailsSvc.send ⟨"resend-rs/0.1.0", "k", ⟨"https://api.resend.com", "/"⟩, 9⟩
        (CreateEmailBaseOptions.new "a@x" ["b@x"] "s") (fun _ => "c")
        (fun _ => .ok ⟨200, "e"⟩) (fun _ => .error ⟨"d"⟩) (fun _ => .ok ⟨"id1"⟩)
      = dispatchPipeline ⟨"resend-rs/0.1.0", "k", ⟨"https://api.resend.com", "/"⟩, 9⟩
          .POST "/emails" (some "c")
          (fun _ => .ok ⟨200, "e"⟩) (fun _ => .error ⟨"d"⟩) (fun _ => .ok ⟨"id1"⟩) ∧
    Contacts.add ⟨"resend-rs/0.1.0", "k", ⟨"https://api.resend.com", "/"⟩, 9⟩ "aud"
        ⟨"bob@example.com", none, none, none, none⟩ (fun _ => "c")
        (fun _ => .ok ⟨500, "e"⟩) (fun _ => .ok ⟨some "contact", some "c1"⟩)
      ≠ .error (.Resend ⟨"internal_server_error", "boom"⟩) :=
  ⟨(facades_dispatch_amended
      ⟨"resend-rs/0.1.0", "k", ⟨"https://api.resend.com", "/"⟩, 9⟩
      (CreateEmailBaseOptions.new "a@x" ["b@x"] "s") (fun _ => "c")
      (fun _ => .ok ⟨200, "e"⟩) (fun _ => .error ⟨"d"⟩) (fun _ => .ok ⟨"id1"⟩)
      (fun _ => .error ⟨"d"⟩) "e1" "aud" "c1" "bob@example.com"
      ⟨"bob@example.com", none, none, none, none⟩ (fun _ => "c")
      ⟨none, none, none, none⟩ (fun _ => "c")
      (fun _ => .ok ⟨some "contact", some "c1"⟩) (fun _ => .error ⟨"d"⟩)
      (fun _ => .error ⟨"d"⟩) (fun _ => .error ⟨"d"⟩)).1,
   (facades_dispatch_amended
      ⟨"resend-rs/0.1.0", "k", ⟨"https://api.resend.com", "/"⟩, 9⟩
      (CreateEmailBaseOptions.new "a@x" ["b@x"] "s") (fun _ => "c")
      (fun _ => .ok ⟨500, "e"⟩) (fun _ => .error ⟨"d"⟩) (fun _ => .ok ⟨"id1"⟩)
      (fun _ => .error ⟨"d"⟩) "e1" "aud" "c1" "bob@example.com"
      ⟨"bob@example.com", none, none, none, none⟩ (fun _ => "c")
      ⟨none, none, none, none⟩ (fun _ => "c")
      (fun _ => .ok ⟨some "contact", some "c1"⟩) (fun _ => .error ⟨"d"⟩)
      (fun _ => .error ⟨"d"⟩) (fun _ => .error ⟨"d"⟩)).2.2.1
     ⟨"internal_server_error", "boom"⟩⟩

/-- C4: `Client::with_client` makes all five facades hold the same
single `Config` allocation, the construction allocates exactly one
`Config` (one rate limiter, one credential), and `#[derive(Clone)]`
copies the `Arc` pointers so a clone's facades reference the same
allocation — no second rate-limiter budget. -/
theorem client_shares_single_config (nextId : Nat)
    (pkgName pkgVersion api_key : String) (base_url : UrlModel) (burst : Nat) :
    ((Client.with_client nextId pkgName pkgVersion api_key base_url burst).1.api_keys
        = (Client.with_client nextId pkgName pkgVersion api_key base_url burst).1.emails ∧
      (Client.with_client nextId pkgName pkgVersion api_key base_url burst).1.audiences
        = (Client.with_client nextId pkgName pkgVersion api_key base_url burst).1.emails ∧
      (Client.with_client nextId pkgName pkgVersion api_key base_url burst).1.contacts
        = (Client.with_client nextId pkgName pkgVersion api_key base_url burst).1.emails ∧
      (Client.with_client nextId pkgName pkgVersion api_key base_url burst).1.domains
        = (Client.with_client nextId pkgName pkgVersion api_key base_url burst).1.emails) ∧
    (Client.with_client nextId pkgName pkgVersion api_key base_url burst).2 = nextId + 1 ∧
    Client.clone (Client.with_client nextId pkgName pkgVersion api_key base_url burst).1
      = (Client.with_client nextId pkgName pkgVersion api_key base_url burst).1 :=
  ⟨⟨rfl, rfl, rfl, rfl⟩, rfl, rfl⟩

/-- C6: `Config::build` is pure and deterministic — two configs
agreeing on credential, base URL and user agent yield identical
requests, and the built request carries exactly the given method, the
path resolved against the base URL, the bearer `Authorization` header
and the fixed `User-Agent` header, with no body and no I/O. -/
theorem build_pure_and_authenticated (c1 c2 : Config) (method : Method) (path : String)
    (hk : c1.api_key = c2.api_key) (hb : c1.base_url = c2.base_url)
    (hu : c1.user_agent = c2.user_agent) :
    Config.build c1 method path = Config.build c2 method path ∧
    (Config.build c1 method path).method = method ∧
    (Config.build c1 method path).url = c1.base_url.join path ∧
    (Config.build c1 method path).headers =
      [("Authorization", "Bearer " ++ c1.api_key), ("User-Agent", c1.user_agent)] ∧
    (Config.build c1 method path).body = none := by
  refine ⟨?_, rfl, rfl, rfl, rfl⟩
  simp [Config.build, hk, hb, hu]

/-- Witness for C6 at two concrete configs that differ only in the
rate-limiter quota. -/
theorem build_pure_and_authenticated_witness :
    Config.build ⟨"resend-rs/0.1.0", "k1", ⟨"https://api.resend.com", "/"⟩, 9⟩ .POST "/emails"
      = Config.build ⟨"resend-rs/0.1.0", "k1", ⟨"https://api.resend.com", "/"⟩, 5⟩ .POST "/emails" ∧
    (Config.build ⟨"resend-rs/0.1.0", "k1", ⟨"https://api.resend.com", "/"⟩, 9⟩ .POST "/emails").method
      = .POST ∧
    (Config.build ⟨"resend-rs/0.1.0", "k1", ⟨"https://api.resend.com", "/"⟩, 9⟩ .POST "/emails").url
      = UrlModel.join ⟨"https://api.resend.com", "/"⟩ "/emails" ∧
    (Config.build ⟨"resend-rs/0.1.0", "k1", ⟨"https://api.resend.com", "/"⟩, 9⟩ .POST "/emails").headers
      = [("Authorization", "Bearer " ++ "k1"), ("User-Agent", "resend-rs/0.1.0")] ∧
    (Config.build ⟨"resend-rs/0.1.0", "k1", ⟨"https://api.resend.com", "/"⟩, 9⟩ .POST "/emails").body
      = none :=
  build_pure_and_authenticated
    ⟨"resend-rs/0.1.0", "k1", ⟨"https://api.resend.com", "/"⟩, 9⟩
    ⟨"resend-rs/0.1.0", "k1", ⟨"https://api.resend.com", "/"⟩, 5⟩
    .POST "/emails" rfl rfl rfl

/-- C7 counterexample: the override string `"0"` is a valid
non-negative integer (it parses as the u32 value 0), yet construction
is fatal — `NonZeroU32::new(0)` yields `None` and the `expect` panics —
rather than succeeding with burst capacity 0 as the claim states. -/
theorem rate_limit_zero_is_fatal :
    parseU32 "0" = some 0 ∧ configNewRateLimit (some "0") = none :=
  ⟨rfl, rfl⟩

/-- C7 amended: with no override the burst capacity defaults to 9, and
with an override string the construction succeeds with burst `n`
exactly when the string parses as the u32 value `n` and `n` is nonzero;
a non-u32 or zero override is fatal. -/
theorem rate_limit_construction (s : String) (n : Nat) :
    configNewRateLimit none = some 9 ∧
    (configNewRateLimit (some s) = some n ↔ parseU32 s = some n ∧ 0 < n) := by
  refine ⟨rfl, ?_⟩
  simp only [configNewRateLimit, Option.getD_some]
  cases hp : parseU32 s with
  | none => simp
  | some m =>
    show (if m = 0 then none else some m) = some n ↔ some m = some n ∧ 0 < n
    by_cases hm : m = 0
    · subst hm
      rw [if_pos rfl]
      constructor
      · intro h
        exact absurd h (by simp)
      · rintro ⟨h1, h2⟩
        injection h1 with h1
        exact absurd h2 (by omega)
    · rw [if_neg hm]
      constructor
      · intro h
        refine ⟨h, ?_⟩
        injection h with h
        omega
      · intro h
        exact h.1

/-- Witness for C7's amended theorem at the concrete override `"17"`
and at the default. -/
theorem rate_limit_construction_witness :
    configNewRateLimit none = some 9 ∧ configNewRateLimit (some "17") = some 17 :=
  ⟨(rate_limit_construction "17" 17).1,
   (rate_limit_construction "17" 17).2.mpr ⟨rfl, by omega⟩⟩

/-- C8 counterexample: `with_bcc` is not last-write-wins — calling it
twice with `"c@x"` then `"d@x"` accumulates both addresses instead of
keeping only the second. -/
theorem with_bcc_not_last_write_wins :
    ((CreateEmailBaseOptions.new "a@x" ["b@x"] "s").with_bcc "c@x").with_bcc "d@x"
      ≠ (CreateEmailBaseOptions.new "a@x" ["b@x"] "s").with_bcc "d@x" := by
  decide

/-- Helper: inserting at the same key twice leaves exactly the second
binding, the replace-on-insert semantics of `HashMap::insert`. -/
theorem insertHeader_insertHeader (l : List (String × String)) (n v1 v2 : String) :
    insertHeader (insertHeader l n v1) n v2 = insertHeader l n v2 := by
  induction l with
  | nil => simp [insertHeader]
  | cons hd tl ih =>
    obtain ⟨k, w⟩ := hd
    by_cases h : k = n
    · simp [insertHeader, h]
    · simp [insertHeader, h, ih]

/-- C8 amended: last-write-wins holds for the overwriting setters
(`with_html`, `with_text`, and `with_header` at the same header name),
while each list-valued setter (`with_bcc`, `with_cc`, `with_reply`,
`with_attachment`, `with_tag`) accumulates — calling it twice with v1
then v2 appends both values in order instead of keeping only v2. -/
theorem builder_overwrite_setters_last_write_wins (o : CreateEmailBaseOptions)
    (v1 v2 n : String) (a1 a2 : Attachment) (t1 t2 : Tag) :
    (o.with_html v1).with_html v2 = o.with_html v2 ∧
    (o.with_text v1).with_text v2 = o.with_text v2 ∧
    (o.with_header n v1).with_header n v2 = o.with_header n v2 ∧
    (o.with_bcc v1).with_bcc v2
      = { o with bcc := some (o.bcc.getD [] ++ [v1, v2]) } ∧
    (o.with_cc v1).with_cc v2
      = { o with cc := some (o.cc.getD [] ++ [v1, v2]) } ∧
    (o.with_reply v1).with_reply v2
      = { o with reply_to := some (o.reply_to.getD [] ++ [v1, v2]) } ∧
    (o.with_attachment a1).with_attachment a2
      = { o with attachments := some (o.attachments.getD [] ++ [a1, a2]) } ∧
    (o.with_tag t1).with_tag t2
      = { o with tags := some (o.tags.getD [] ++ [t1, t2]) } := by
  refine ⟨rfl, rfl, ?_, ?_, ?_, ?_, ?_, ?_⟩
  · simp [CreateEmailBaseOptions.with_header, insertHeader_insertHeader]
  · simp [CreateEmailBaseOptions.with_bcc]
  · simp [CreateEmailBaseOptions.with_cc]
  · simp [CreateEmailBaseOptions.with_reply]
  · simp [CreateEmailBaseOptions.with_attachment]
  · simp [CreateEmailBaseOptions.with_tag]

/-- C9: `Contacts::delete` returns `Ok(())` for every response the
transport delivers, whatever its status, and only a transport-level
failure produces an error (`Error.Http`). -/
theorem contacts_delete_ignores_status (cfg : Config) (audience_id email_or_id : String)
    (execute : RequestModel → Except ReqwestError Response) :
    (∀ response,
      execute (Config.build cfg .DELETE
          ("/audiences/" ++ audience_id ++ "/contacts/" ++ email_or_id)) = .ok response →
      Contacts.delete cfg audience_id email_or_id execute = .ok ()) ∧
    (∀ e,
      execute (Config.build cfg .DELETE
          ("/audiences/" ++ audience_id ++ "/contacts/" ++ email_or_id)) = .error e →
      Contacts.delete cfg audience_id email_or_id execute = .error (.Http e)) := by
  constructor <;> intro x hx <;> simp [Contacts.delete, hx]

/-- Witness for C9: a 404 ("contact not found") answer from the service
is reported to the caller as success. -/
theorem contacts_delete_ignores_status_witness :
    Contacts.delete ⟨"resend-rs/0.1.0", "k", ⟨"https://api.resend.com", "/"⟩, 9⟩
        "aud" "bob@example.com" (fun _ => .ok ⟨404, "not found"⟩)
      = .ok () :=
  (contacts_delete_ignores_status
      ⟨"resend-rs/0.1.0", "k", ⟨"https://api.resend.com", "/"⟩, 9⟩
      "aud" "bob@example.com" (fun _ => .ok ⟨404, "not found"⟩)).1
    ⟨404, "not found"⟩ rfl

/-- C10: `Client::api_key` on a client built by `Client::with_client`
returns exactly the key it was constructed with, and
`Client::user_agent` returns the fixed `<package name>/<package
version>` string computed at construction. -/
theorem api_key_user_agent_roundtrip (nextId : Nat)
    (pkgName pkgVersion k : String) (base_url : UrlModel) (burst : Nat) :
    Client.api_key (Client.with_client nextId pkgName pkgVersion k base_url burst).1 = k ∧
    Client.user_agent (Client.with_client nextId pkgName pkgVersion k base_url burst).1
      = pkgName ++ "/" ++ pkgVersion :=
  ⟨rfl, rfl⟩
